import Mathlib

/-!
Verification of the texteripy client (src/texteripy/client.py) against its
specification.  The Python code is shallowly embedded: JSON values, the query
and body construction of Texterify._make_request, its response classification,
and the parameter-shaping operation methods become executable Lean functions.
The network and the local file system are abstracted as explicit inputs (an
HTTP response value, the outcome of the file read).
-/

namespace Texteripy

/-- JSON values, the decoded form of request parameters and response bodies.
Objects model Python dicts as association lists (keys unique in practice,
lookup takes the first match). -/
inductive Json where
  | null : Json
  | bool : Bool → Json
  | num : Int → Json
  | str : String → Json
  | arr : List Json → Json
  | obj : List (String × Json) → Json

/-- A Python exception value, identified by its class name and message.  All
failures raised by client.py are plain Exception values; KeyError and
TypeError arise from subscripting a response that lacks the expected shape. -/
structure PyExc where
  typeName : String
  msg : String
deriving DecidableEq, Repr

/-- Python truthiness (bool(v)) for JSON values: None, False, 0, empty string,
empty list and empty dict are falsy, everything else truthy. -/
def Json.truthy : Json → Bool
  | .null => false
  | .bool b => b
  | .num n => !(n == 0)
  | .str s => !s.isEmpty
  | .arr l => !l.isEmpty
  | .obj l => !l.isEmpty

/-- Whether the value is a Python bool (the isinstance(v, bool) test in
client.py line 57). -/
def Json.isBool : Json → Bool
  | .bool _ => true
  | _ => false

/-- Python str(v) for the values that reach query-string serialization in this
client (None, bool, int, str).  Container values never reach a query string in
client.py, so their repr text is abstracted as the empty string. -/
def pyStrVal : Json → String
  | .null => "None"
  | .bool b => if b then "True" else "False"
  | .num n => toString n
  | .str s => s
  | .arr _ => ""
  | .obj _ => ""

/-- Lowercasing, as Python str.lower on ASCII text. -/
def pyLower (s : String) : String := String.mk (s.data.map Char.toLower)

/-- First-match lookup in an association list, the model of Python dict
indexing and dict.get on a Json.obj. -/
def alookup (kvs : List (String × Json)) (k : String) : Option Json :=
  match kvs.find? (fun kv => kv.1 == k) with
  | some kv => some kv.2
  | none => none

/-- Truthiness of a Python dict.get result: missing keys give None, which is
falsy; present values use their own truthiness. -/
def optTruthy : Option Json → Bool
  | none => false
  | some j => j.truthy

/-- Truthiness of an optional Python string argument: None and the empty
string are falsy. -/
def optStrTruthy : Option String → Bool
  | none => false
  | some s => !s.isEmpty

/-- Python equality between a dict.get result and a string literal: only a
present string value equal to the literal compares equal (None == str and
other-typed values == str are False in Python). -/
def pyEqStr (v : Option Json) (s : String) : Bool :=
  match v with
  | some (Json.str t) => t == s
  | _ => false

/-- Whether a JSON object literally carries a key (field presence, as opposed
to the truthiness test the code performs). -/
def Json.hasField : Json → String → Bool
  | .obj kvs, k => kvs.any (fun kv => kv.1 == k)
  | _, _ => false

/-- Python subscript v[k]: KeyError when the key is missing from a dict,
TypeError when the value is not a dict. -/
def jsonIndex : Json → String → Except PyExc Json
  | .obj kvs, k =>
      match alookup kvs k with
      | some v => Except.ok v
      | none => Except.error ⟨"KeyError", k⟩
  | _, _ => Except.error ⟨"TypeError", "value is not subscriptable"⟩

/-- UTF-8 encoding of one character, as the byte sequence Python would encode
before percent-encoding. -/
def utf8Bytes (c : Char) : List Nat :=
  let n := c.toNat
  if n < 128 then [n]
  else if n < 2048 then [192 + n / 64, 128 + n % 64]
  else if n < 65536 then [224 + n / 4096, 128 + n / 64 % 64, 128 + n % 64]
  else [240 + n / 262144, 128 + n / 4096 % 64, 128 + n / 64 % 64, 128 + n % 64]

/-- The UTF-8 byte sequence of a string. -/
def strBytes (s : String) : List Nat :=
  (s.data.map utf8Bytes).flatten

/-- Uppercase hexadecimal digit, as used by percent-encoding. -/
def hexDigit (n : Nat) : Char :=
  if n < 10 then Char.ofNat (48 + n) else Char.ofNat (55 + n % 16)

/-- Bytes urllib.parse.quote_plus leaves unescaped: ASCII letters, digits, and
the characters underscore, dot, hyphen, tilde. -/
def isSafeByte (b : Nat) : Bool :=
  (65 ≤ b && b ≤ 90) || (97 ≤ b && b ≤ 122) || (48 ≤ b && b ≤ 57) ||
    b == 95 || b == 46 || b == 45 || b == 126

/-- quote_plus on one byte: space becomes a plus sign, safe bytes stand for
themselves, every other byte is percent-encoded with uppercase hex. -/
def quotePlusByte (b : Nat) : String :=
  if b == 32 then "+"
  else if isSafeByte b then Char.toString (Char.ofNat b)
  else "%" ++ Char.toString (hexDigit (b / 16 % 16)) ++ Char.toString (hexDigit (b % 16))

/-- Model of urllib.parse.quote_plus over the UTF-8 bytes of a string. -/
def quote_plus (s : String) : String :=
  String.join ((strBytes s).map quotePlusByte)

/-- Model of urllib.parse.urlencode on a list of pairs, as called at client.py
line 58: each key and the str() rendering of each value are quote_plus-encoded
and the pairs joined with ampersands. -/
def urlencode (ps : List (String × Json)) : String :=
  String.intercalate "&" (ps.map (fun kv => quote_plus kv.1 ++ "=" ++ quote_plus (pyStrVal kv.2)))

/-- The base64 alphabet character for a 6-bit group. -/
def b64Char (n : Nat) : Char :=
  if n < 26 then Char.ofNat (65 + n)
  else if n < 52 then Char.ofNat (97 + (n - 26))
  else if n < 62 then Char.ofNat (48 + (n - 52))
  else if n == 62 then '+' else '/'

/-- Model of base64.b64encode(...).decode() on a byte list, as used by
import_project (client.py lines 268-270): bytes are taken three at a time,
emitted as four alphabet characters, with equals-sign padding for a short
final group. -/
def base64encode : List Nat → String
  | [] => ""
  | [b1] =>
      let n := b1 % 256 * 65536
      Char.toString (b64Char (n / 262144 % 64)) ++ Char.toString (b64Char (n / 4096 % 64)) ++ "=="
  | [b1, b2] =>
      let n := b1 % 256 * 65536 + b2 % 256 * 256
      Char.toString (b64Char (n / 262144 % 64)) ++ Char.toString (b64Char (n / 4096 % 64)) ++
        Char.toString (b64Char (n / 64 % 64)) ++ "="
  | b1 :: b2 :: b3 :: rest =>
      let n := b1 % 256 * 65536 + b2 % 256 * 256 + b3 % 256
      Char.toString (b64Char (n / 262144 % 64)) ++ Char.toString (b64Char (n / 4096 % 64)) ++
        Char.toString (b64Char (n / 64 % 64)) ++ Char.toString (b64Char (n % 64)) ++
        base64encode rest

/-- The fixed base URL composed in the constructor (client.py lines 35-38). -/
def api_base_url : String := "https://app.texterify.com/api/v1/"

/-- The outgoing request as _make_request hands it to aiohttp (client.py lines
54-68): the full URL after the GET query folding of lines 56-58, the query
pairs that folding placed in the URL, the object serialized by json.dumps into
the body for non-GET methods (a body is sent even for absent params, as the
JSON literal null), the params list stored under the aiohttp params option for
GET, and the is_file_download flag carried to response handling. -/
structure BuiltRequest where
  full_url : String
  method : String
  url_query : List (String × String)
  options_data : Option Json
  aio_params : Option (List (String × Json))
  is_file_download : Bool

/-- Python truthiness of the params argument (Optional dict): None and the
empty dict are falsy. -/
def optParamsTruthy : Option (List (String × Json)) → Bool
  | none => false
  | some kvs => !kvs.isEmpty

/-- The value transform of the comprehension at client.py line 57: a bool
becomes the lowercase text of its str() form; every other value is kept. -/
def flattenVal (v : Json) : Json :=
  if v.isBool then Json.str (pyLower (pyStrVal v)) else v

/-- Request construction of Texterify._make_request (client.py lines 54-68).
For GET with truthy params the params are flattened and folded into the URL as
a query string, and the flattened list is also stored under the aiohttp params
option; for other methods the params object (or null for None) is serialized
into the request body. -/
def make_request_build (url : String) (method : String)
    (params : Option (List (String × Json))) (is_file_download : Bool) : BuiltRequest :=
  let getActive := method == "GET" && optParamsTruthy params
  let flat : List (String × Json) :=
    match params with
    | some kvs => kvs.map (fun kv => (kv.1, flattenVal kv.2))
    | none => []
  { full_url := api_base_url ++ url ++ (if getActive then "?" ++ urlencode flat else "")
    method := method
    url_query := if getActive then flat.map (fun kv => (kv.1, pyStrVal kv.2)) else []
    options_data :=
      if method == "GET" then none
      else some (match params with | some kvs => Json.obj kvs | none => Json.null)
    aio_params := if method == "GET" then (if getActive then some flat else params) else none
    is_file_download := is_file_download }

/-- The decoded query pairs of the request actually sent on the wire.  Model
of aiohttp ClientRequest handling of the params option: aiohttp merges the
given params into the query already present in the URL instead of replacing it
(client_reqrep.py builds a MultiDict from the query of the URL and extends it
with the encoded params), so the pairs folded into the URL by line 58 are
followed by the pairs aiohttp adds from the params option of line 68. -/
def sentQuery (r : BuiltRequest) : List (String × String) :=
  r.url_query ++
    (match r.aio_params with
      | some ps => if ps.isEmpty then [] else ps.map (fun kv => (kv.1, pyStrVal kv.2))
      | none => [])

/-- An HTTP response as _make_request observes it: a status code and the
outcome of await response.json() — either the decoded body or the exception
the decode raises.  For a file download the body is never read. -/
structure HttpResponse where
  status : Nat
  body : Except PyExc Json

/-- What a successful _make_request hands back: the decoded JSON body, or the
unread response handle when is_file_download is set (client.py line 78). -/
inductive FetchResult where
  | jsonData : Json → FetchResult
  | handle : HttpResponse → FetchResult

/-- The logger.error calls client.py can emit, identified structurally:
the fixed 404 diagnostic of lines 72-73, the generic status diagnostic of
line 75 carrying the status, the catch-all log of line 81 carrying the caught
exception, and the create_key diagnostic of lines 168-169. -/
inductive LogMsg where
  | resourceNotFound : LogMsg
  | invalidStatus (status : Nat) : LogMsg
  | errorWith (e : PyExc) : LogMsg
  | needDefaultLanguage : LogMsg
deriving DecidableEq, Repr

/-- The exception raised for a non-200, non-400 status (client.py line 76):
a plain Exception whose message names the status.  The class is the same for
every such status; only the embedded number differs. -/
def statusExc (status : Nat) : PyExc :=
  ⟨"Exception", "Invalid response status received: " ++ toString status ++ "\n"⟩

/-- Response classification of _make_request (client.py lines 71-82).  A
status other than 200 and 400 logs a diagnostic (the specific 404 text, or the
generic text with the status) and raises the status exception — which the
enclosing except clause of lines 80-82 then catches, logs a second time, and
re-raises.  A 200 or 400 response returns the unread handle when
is_file_download is set, and otherwise the decoded body; a body-decode failure
is caught by the except clause, logged once, and re-raised.  The returned pair
is (log records emitted in order, outcome). -/
def handleResponse (is_file_download : Bool) (resp : HttpResponse) :
    List LogMsg × Except PyExc FetchResult :=
  if resp.status ≠ 200 ∧ resp.status ≠ 400 then
    let detect := if resp.status = 404 then LogMsg.resourceNotFound
                  else LogMsg.invalidStatus resp.status
    ([detect, LogMsg.errorWith (statusExc resp.status)], Except.error (statusExc resp.status))
  else if is_file_download then
    ([], Except.ok (FetchResult.handle resp))
  else
    match resp.body with
    | Except.ok j => ([], Except.ok (FetchResult.jsonData j))
    | Except.error e => ([LogMsg.errorWith e], Except.error e)

/-- What the awaited network interaction produced: a response, or an exception
raised during encoding, session setup, or dispatch. -/
inductive NetOutcome where
  | response : HttpResponse → NetOutcome
  | raised : PyExc → NetOutcome

/-- The receive half of _make_request over an abstract network outcome: a
response goes through status classification and body handling; an exception
raised before a response exists is caught by the except clause of lines 80-82,
logged, and re-raised. -/
def make_request_receive (is_file_download : Bool) :
    NetOutcome → List LogMsg × Except PyExc FetchResult
  | NetOutcome.response r => handleResponse is_file_download r
  | NetOutcome.raised e => ([LogMsg.errorWith e], Except.error e)

/-- Whether the network outcome is a response whose status _make_request
rejects (neither 200 nor 400). -/
def isBadStatusOutcome : NetOutcome → Bool
  | NetOutcome.response r => decide (r.status ≠ 200 ∧ r.status ≠ 400)
  | NetOutcome.raised _ => false

/-- Request built by get_keys (client.py lines 126-142): a GET on the keys
path of the project always carrying all six filter fields, with the caller
values or the declared defaults. -/
def get_keys (project_id : String) (page : Int := 1) (per_page : Int := 10)
    (case_sensitive : Bool := false) (only_html_enabled : Bool := false)
    (only_untranslated : Bool := false) (only_with_overwrites : Bool := false) : BuiltRequest :=
  make_request_build ("projects/" ++ project_id ++ "/keys") "GET"
    (some [("page", Json.num page), ("per_page", Json.num per_page),
           ("case_sensitive", Json.bool case_sensitive),
           ("only_html_enabled", Json.bool only_html_enabled),
           ("only_untranslated", Json.bool only_untranslated),
           ("only_with_overwrites", Json.bool only_with_overwrites)])
    false

/-- Request built by create_translation (client.py lines 277-294): a POST
whose body carries language_id (the Python None default becoming JSON null),
the key id, and the content nested under translation.  The key id is typed as
a JSON value because create_key feeds it the id read out of a decoded
response. -/
def create_translation (project_id : String) (key_id : Json) (content : String)
    (language_id : Option String := none) : BuiltRequest :=
  make_request_build ("projects/" ++ project_id ++ "/translations") "POST"
    (some [("language_id", match language_id with
                           | none => Json.null
                           | some l => Json.str l),
           ("key_id", key_id),
           ("translation", Json.obj [("content", Json.str content)])])
    false

/-- Request built by get_languages (client.py lines 296-301): a GET whose
search field falls back to the empty string whenever the given search value is
falsy — in particular for the None default. -/
def get_languages (project_id : String) (page : Int := 1) (per_page : Int := 10)
    (search : Json := Json.null) : BuiltRequest :=
  make_request_build ("projects/" ++ project_id ++ "/languages") "GET"
    (some [("page", Json.num page), ("per_page", Json.num per_page),
           ("search", if search.truthy then search else Json.str "")])
    false

/-- Request built by export_project (client.py lines 247-256): a GET on the
export path with the caller options, issued with is_file_download set. -/
def export_project (project_id : String) (export_config_id : String)
    (options : List (String × Json)) : BuiltRequest :=
  make_request_build ("projects/" ++ project_id ++ "/exports/" ++ export_config_id)
    "GET" (some options) true

/-- Model of import_project (client.py lines 258-275).  The local file system
is abstracted as the outcome of open(file_path, "rb").read(): either the full
byte contents or the exception the read raises.  A read failure propagates
before any request exists; a successful read is base64-encoded into the file
field of the POST body next to the language id. -/
def import_project (project_id : String) (language_id : String) (file_path : String)
    (read_result : Except PyExc (List Nat)) : Except PyExc BuiltRequest :=
  match read_result with
  | Except.error e => Except.error e
  | Except.ok bs =>
      Except.ok (make_request_build ("projects/" ++ project_id ++ "/import") "POST"
        (some [("language_id", Json.str language_id),
               ("file", Json.str (base64encode bs))])
        false)

/-- Arguments of one create_translation call issued by create_key. -/
structure TransCall where
  project_id : String
  key_id : Json
  content : String
  language_id : Option String

/-- The chained-call condition of create_key (client.py line 160), exactly as
the code evaluates it: not new_key.get("error") and new_key.get("data") and
default_language_translation — Python truthiness on all three, so an absent or
falsy error entry, a present truthy data entry, and a non-empty translation
argument. -/
def ckCond (kvs : List (String × Json)) (dlt : Option String) : Bool :=
  !(optTruthy (alookup kvs "error")) && optTruthy (alookup kvs "data") && optStrTruthy dlt

/-- The key id create_key reads from the primary response (client.py line
163): the subscript chain data, attributes, id, each step failing as Python
subscripting fails. -/
def keyIdOf (j : Json) : Except PyExc Json :=
  match jsonIndex j "data" with
  | Except.error e => Except.error e
  | Except.ok d =>
      match jsonIndex d "attributes" with
      | Except.error e => Except.error e
      | Except.ok a => jsonIndex a "id"

/-- The AttributeError raised when .get is called on a non-dict value. -/
def attrErr : PyExc := ⟨"AttributeError", "value has no attribute get"⟩

/-- Model of create_key (client.py lines 144-171) with the network abstracted:
primary is the decoded response of the key-creation POST, secondary the
decoded response the chained create_translation call returns.  The result
records the create_translation calls issued and the log records emitted on
every path, together with the returned value or the exception that escapes.
When the chained-call condition holds, exactly one call is issued with the key
id read from the primary response and the supplied translation as content (and
no language id); if the secondary response carries the error code
NO_DEFAULT_LANGUAGE_SPECIFIED a diagnostic is logged; in every non-raising
case the primary response itself is returned. -/
def create_key (project_id : String) (name : String) (description : String)
    (default_language_translation : Option String)
    (primary : Json) (secondary : Json) :
    List TransCall × List LogMsg × Except PyExc Json :=
  match primary with
  | Json.obj kvs =>
      if ckCond kvs default_language_translation then
        match keyIdOf primary with
        | Except.error e => ([], [], Except.error e)
        | Except.ok kid =>
            let call : TransCall :=
              ⟨project_id, kid, default_language_translation.getD "", none⟩
            match secondary with
            | Json.obj skvs =>
                let logs :=
                  if pyEqStr (alookup skvs "error") "NO_DEFAULT_LANGUAGE_SPECIFIED"
                  then [LogMsg.needDefaultLanguage] else []
                ([call], logs, Except.ok primary)
            | _ => ([call], [], Except.error attrErr)
      else ([], [], Except.ok primary)
  | _ => ([], [], Except.error attrErr)

/-! Helper lemmas shared by the claim theorems. -/

/-- A bool flattened for the query renders as the lowercase literal. -/
theorem flattenVal_bool (b : Bool) :
    pyStrVal (flattenVal (Json.bool b)) = if b then "true" else "false" := by
  cases b <;> decide

/-- Numbers pass through query flattening and render via toString. -/
theorem flattenVal_num (n : Int) :
    pyStrVal (flattenVal (Json.num n)) = toString n := rfl

/-- Strings pass through query flattening unchanged. -/
theorem flattenVal_str (s : String) :
    pyStrVal (flattenVal (Json.str s)) = s := rfl

/-- The wire query of a GET with non-empty params: the params folded into the
URL followed by the same params again, added by aiohttp from the params
option. -/
theorem sentQuery_get_nonempty (url : String) (kvs : List (String × Json)) (fd : Bool)
    (h : kvs ≠ []) :
    sentQuery (make_request_build url "GET" (some kvs) fd) =
      kvs.map (fun kv => (kv.1, pyStrVal (flattenVal kv.2))) ++
        kvs.map (fun kv => (kv.1, pyStrVal (flattenVal kv.2))) := by
  have hne : kvs.isEmpty = false := by
    cases kvs with
    | nil => exact absurd rfl h
    | cons a t => rfl
  have hflat : (kvs.map (fun kv => (kv.1, flattenVal kv.2))).isEmpty = false := by
    cases kvs with
    | nil => exact absurd rfl h
    | cons a t => rfl
  simp [sentQuery, make_request_build, optParamsTruthy, hne, hflat,
    List.map_map, Function.comp_def]

/-! Claim theorems. -/

/-- C2: a response with status 200 or 400 is returned to the caller as a
successful result — a status-400 body such as the object with error SOME_CODE
is returned verbatim, not raised — while any other status raises the generic
status exception, so that a 404 differs from a 500 only in the logged
diagnostic, never in the catchable class of the raised error. -/
theorem make_request_status_classification :
    (∀ (fd : Bool) (status : Nat) (j : Json),
        make_request_receive fd (NetOutcome.response ⟨status, Except.ok j⟩) =
          if status = 200 ∨ status = 400 then
            ([], Except.ok (if fd then FetchResult.handle ⟨status, Except.ok j⟩
                            else FetchResult.jsonData j))
          else
            ([if status = 404 then LogMsg.resourceNotFound else LogMsg.invalidStatus status,
              LogMsg.errorWith (statusExc status)],
             Except.error (statusExc status))) ∧
    (statusExc 404).typeName = (statusExc 500).typeName ∧
    make_request_receive false
        (NetOutcome.response ⟨400, Except.ok (Json.obj [("error", Json.str "SOME_CODE")])⟩) =
      ([], Except.ok (FetchResult.jsonData (Json.obj [("error", Json.str "SOME_CODE")]))) := by
  refine ⟨?_, rfl, rfl⟩
  intro fd status j
  by_cases hok : status = 200 ∨ status = 400
  · have hbad : ¬(status ≠ 200 ∧ status ≠ 400) := by tauto
    cases fd <;> simp [make_request_receive, handleResponse, hok, hbad]
  · have hbad : status ≠ 200 ∧ status ≠ 400 := by tauto
    simp [make_request_receive, handleResponse, hok, hbad]

/-- C5: a successful file read is base64-encoded in full and placed under the
file field of the POST body next to the language id — for the bytes of the
text "file content" the encoded text is ZmlsZSBjb250ZW50 — and a read failure
propagates unchanged with no request built. -/
theorem import_project_payload :
    (∀ (pid lid path : String) (bs : List Nat),
        (import_project pid lid path (Except.ok bs)).map
            (fun r => (r.method, r.options_data)) =
          Except.ok ("POST",
            some (Json.obj [("language_id", Json.str lid),
                            ("file", Json.str (base64encode bs))]))) ∧
    base64encode (strBytes "file content") = "ZmlsZSBjb250ZW50" ∧
    (∀ (pid lid path : String) (e : PyExc),
        import_project pid lid path (Except.error e) = Except.error e) := by
  refine ⟨fun pid lid path bs => rfl, by decide, fun pid lid path e => rfl⟩

/-- C6: the two defaulting conventions stay distinct — create_translation with
the language_id default sends the JSON literal null for the language_id body
field, while get_languages with the search default sends the empty string for
the search query field — and a JSON null is not the empty string. -/
theorem defaulting_conventions_distinct :
    (∀ (pid : String) (kid : Json) (content : String),
        (create_translation pid kid content).options_data =
          some (Json.obj [("language_id", Json.null), ("key_id", kid),
                          ("translation", Json.obj [("content", Json.str content)])])) ∧
    (∀ (pid : String) (page per_page : Int),
        ("search", "") ∈ sentQuery (get_languages pid page per_page)) ∧
    Json.null ≠ Json.str "" := by
  refine ⟨fun pid kid content => rfl, ?_, fun h => Json.noConfusion h⟩
  intro pid page per_page
  rw [get_languages, sentQuery_get_nonempty _ _ _ (by simp)]
  simp [Json.truthy, flattenVal_str]

/-- C8: the query sent by get_keys carries all six filter fields — page,
per_page, case_sensitive, only_html_enabled, only_untranslated and
only_with_overwrites — with the caller-supplied values, booleans rendered in
lowercase; no field is omitted. -/
theorem get_keys_sends_all_six_fields (project_id : String) (page per_page : Int)
    (cs he ut ow : Bool) :
    ("page", toString page) ∈
        sentQuery (get_keys project_id page per_page cs he ut ow) ∧
    ("per_page", toString per_page) ∈
        sentQuery (get_keys project_id page per_page cs he ut ow) ∧
    ("case_sensitive", if cs then "true" else "false") ∈
        sentQuery (get_keys project_id page per_page cs he ut ow) ∧
    ("only_html_enabled", if he then "true" else "false") ∈
        sentQuery (get_keys project_id page per_page cs he ut ow) ∧
    ("only_untranslated", if ut then "true" else "false") ∈
        sentQuery (get_keys project_id page per_page cs he ut ow) ∧
    ("only_with_overwrites", if ow then "true" else "false") ∈
        sentQuery (get_keys project_id page per_page cs he ut ow) := by
  rw [get_keys, sentQuery_get_nonempty _ _ _ (by simp)]
  refine ⟨?_, ?_, ?_, ?_, ?_, ?_⟩ <;>
    simp [flattenVal_bool, flattenVal_num]

/-- C7: export_project always issues its request with is_file_download set,
and on a successful (status 200 or 400) outcome the dispatcher returns the raw
unread response handle — never a decoded structure, whatever the body holds. -/
theorem export_project_raw_handle :
    (∀ (pid ecid : String) (options : List (String × Json)),
        (export_project pid ecid options).is_file_download = true) ∧
    (∀ r : HttpResponse, r.status = 200 ∨ r.status = 400 →
        handleResponse true r = ([], Except.ok (FetchResult.handle r))) := by
  refine ⟨fun pid ecid options => rfl, ?_⟩
  intro r hr
  have hbad : ¬(r.status ≠ 200 ∧ r.status ≠ 400) := by tauto
  simp [handleResponse, hbad]

/-- Witness for C7 at a concrete 200 response whose body would decode as
JSON. -/
theorem export_project_raw_handle_witness :
    (export_project "p" "c" []).is_file_download = true ∧
    handleResponse true ⟨200, Except.ok Json.null⟩ =
      ([], Except.ok (FetchResult.handle ⟨200, Except.ok Json.null⟩)) :=
  ⟨export_project_raw_handle.1 "p" "c" [],
   export_project_raw_handle.2 ⟨200, Except.ok Json.null⟩ (Or.inl rfl)⟩

/-- C9: in the wire query of a GET, every boolean-valued parameter is rendered
as the lowercase literal true or false, every pair of the query is the
rendering of a supplied parameter, and non-boolean values render via their
natural string form (numbers via toString, strings as themselves). -/
theorem get_bool_params_render_lowercase (url : String) (kvs : List (String × Json))
    (fd : Bool) :
    (∀ (k : String) (b : Bool), (k, Json.bool b) ∈ kvs →
        (k, if b then "true" else "false") ∈
          sentQuery (make_request_build url "GET" (some kvs) fd)) ∧
    (∀ p ∈ sentQuery (make_request_build url "GET" (some kvs) fd),
        ∃ kv, kv ∈ kvs ∧ p = (kv.1, pyStrVal (flattenVal kv.2))) ∧
    (∀ b : Bool, pyStrVal (flattenVal (Json.bool b)) = if b then "true" else "false") ∧
    (∀ n : Int, pyStrVal (flattenVal (Json.num n)) = toString n) ∧
    (∀ s : String, pyStrVal (flattenVal (Json.str s)) = s) := by
  by_cases h : kvs = []
  · subst h
    refine ⟨?_, ?_, flattenVal_bool, flattenVal_num, flattenVal_str⟩
    · intro k b hb
      simp at hb
    · intro p hp
      simp [sentQuery, make_request_build, optParamsTruthy] at hp
  · rw [sentQuery_get_nonempty _ _ _ h]
    refine ⟨?_, ?_, flattenVal_bool, flattenVal_num, flattenVal_str⟩
    · intro k b hb
      refine List.mem_append_left _ ?_
      have hm := List.mem_map_of_mem (fun kv => (kv.1, pyStrVal (flattenVal kv.2))) hb
      simpa [flattenVal_bool] using hm
    · intro p hp
      rcases List.mem_append.mp hp with hp1 | hp1 <;>
      · rcases List.mem_map.mp hp1 with ⟨kv, hkv, hEq⟩
        exact ⟨kv, hkv, hEq.symm⟩

/-- Witness for C9 at a GET carrying one boolean parameter. -/
theorem get_bool_params_render_lowercase_witness :
    ("flag", "true") ∈
      sentQuery (make_request_build "u" "GET" (some [("flag", Json.bool true)]) false) := by
  have h := (get_bool_params_render_lowercase "u" [("flag", Json.bool true)] false).1
    "flag" true (by simp)
  simpa using h

/-- C3 (refuting the claim as stated): the two GET encoding paths are layered,
so every parameter reaches the wire twice — once folded into the URL at line
58 and once more added by aiohttp from the params option set at line 68.  With
default arguments get_keys sends each of its six parameters twice; in
particular the page parameter occurs twice, not once. -/
theorem get_query_params_sent_twice :
    sentQuery (get_keys "p") =
      [("page", "1"), ("per_page", "10"), ("case_sensitive", "false"),
       ("only_html_enabled", "false"), ("only_untranslated", "false"),
       ("only_with_overwrites", "false"),
       ("page", "1"), ("per_page", "10"), ("case_sensitive", "false"),
       ("only_html_enabled", "false"), ("only_untranslated", "false"),
       ("only_with_overwrites", "false")] ∧
    (sentQuery (get_keys "p")).count ("page", "1") = 2 := by
  constructor <;> decide

/-- C4 (refuting the claim as stated): a 500 response is logged twice before
the error propagates — the diagnostic at detection, then the catch-all log of
the except clause, which catches the raise of line 76 — not exactly once. -/
theorem status_failure_logged_twice :
    (make_request_receive false (NetOutcome.response ⟨500, Except.ok Json.null⟩)).1 =
      [LogMsg.invalidStatus 500, LogMsg.errorWith (statusExc 500)] ∧
    (make_request_receive false (NetOutcome.response ⟨500, Except.ok Json.null⟩)).1.length ≠ 1 := by
  constructor <;> decide

/-- C4 amended: every failure propagates to the caller unchanged after being
logged, the catch-all record carrying exactly the propagated exception coming
last; an exception raised during encoding, dispatch or decoding is logged
once, while a rejected status is logged twice — the diagnostic at detection
plus the catch-all record. -/
theorem error_logging_policy (fd : Bool) (oc : NetOutcome) (e : PyExc)
    (h : (make_request_receive fd oc).2 = Except.error e) :
    (make_request_receive fd oc).1.length = (if isBadStatusOutcome oc then 2 else 1) ∧
    (make_request_receive fd oc).1.getLast? = some (LogMsg.errorWith e) := by
  cases oc with
  | raised e2 =>
      have he : e2 = e := by
        simpa [make_request_receive] using h
      subst he
      simp [make_request_receive, isBadStatusOutcome]
  | response r =>
      by_cases hbad : r.status ≠ 200 ∧ r.status ≠ 400
      · have he : statusExc r.status = e := by
          simpa [make_request_receive, handleResponse, hbad] using h
        subst he
        simp [make_request_receive, handleResponse, hbad, isBadStatusOutcome]
      · cases fd with
        | true =>
            exfalso
            simp [make_request_receive, handleResponse, hbad] at h
        | false =>
            cases hb : r.body with
            | ok j =>
                exfalso
                rw [make_request_receive] at h
                simp [handleResponse, hbad, hb] at h
            | error e2 =>
                have he : e2 = e := by
                  rw [make_request_receive] at h
                  simpa [handleResponse, hbad, hb] using h
                subst he
                rw [make_request_receive]
                simp [handleResponse, hbad, hb, isBadStatusOutcome]

/-- Witness for the amended C4 at a dispatch exception: logged once, the
catch-all record carrying the propagated exception. -/
theorem error_logging_policy_witness :
    (make_request_receive false (NetOutcome.raised ⟨"OSError", "boom"⟩)).1.length = 1 ∧
    (make_request_receive false (NetOutcome.raised ⟨"OSError", "boom"⟩)).1.getLast? =
      some (LogMsg.errorWith ⟨"OSError", "boom"⟩) := by
  have h := error_logging_policy false (NetOutcome.raised ⟨"OSError", "boom"⟩)
    ⟨"OSError", "boom"⟩ rfl
  simpa using h

/-- The primary response of the C1 counterexample: it carries an error field
(whose value is JSON null, hence falsy) together with a well-formed data
field. -/
def cexPrimary : Json :=
  Json.obj [("error", Json.null),
            ("data", Json.obj [("attributes", Json.obj [("id", Json.str "1")])])]

/-- C1 (refuting the claim as stated): the code tests Python truthiness, not
field presence — on a primary response that does carry an error field (with
the falsy value null) next to a well-formed data field, create_key still
issues the chained create_translation call, although the claim as stated
allows one only when no error field is present. -/
theorem create_key_presence_counterexample :
    cexPrimary.hasField "error" = true ∧
    create_key "p" "n" "d" (some "x") cexPrimary (Json.obj []) =
      ([⟨"p", Json.str "1", "x", none⟩], [], Except.ok cexPrimary) := by
  constructor <;> rfl

/-- C1 amended: the chained call is governed by Python truthiness — if and
only if the primary response has an absent or falsy error entry, a present and
truthy data entry, and a non-empty default_language_translation was supplied,
exactly one create_translation call is issued, carrying the key id read at
data.attributes.id and the supplied translation as content; in either case
create_key returns the primary key-creation response, not the secondary
one. -/
theorem create_key_truthiness (pid n d : String) (dlt : Option String)
    (kvs skvs : List (String × Json)) (kid : Json)
    (hid : keyIdOf (Json.obj kvs) = Except.ok kid) :
    create_key pid n d dlt (Json.obj kvs) (Json.obj skvs) =
      if ckCond kvs dlt then
        ([⟨pid, kid, dlt.getD "", none⟩],
         if pyEqStr (alookup skvs "error") "NO_DEFAULT_LANGUAGE_SPECIFIED"
           then [LogMsg.needDefaultLanguage] else [],
         Except.ok (Json.obj kvs))
      else ([], [], Except.ok (Json.obj kvs)) := by
  by_cases hc : ckCond kvs dlt
  · simp [create_key, hc, hid]
  · simp [create_key, hc]

/-- Witness for the amended C1 at a response with no error entry, a well-formed
data entry, and a supplied translation. -/
theorem create_key_truthiness_witness :
    create_key "p" "n" "d" (some "hello")
        (Json.obj [("data", Json.obj [("attributes", Json.obj [("id", Json.str "7")])])])
        (Json.obj []) =
      ([⟨"p", Json.str "7", "hello", none⟩], [],
       Except.ok (Json.obj [("data",
         Json.obj [("attributes", Json.obj [("id", Json.str "7")])])])) := by
  have h := create_key_truthiness "p" "n" "d" (some "hello")
    [("data", Json.obj [("attributes", Json.obj [("id", Json.str "7")])])] []
    (Json.str "7") rfl
  rw [h]
  rfl

/-- C10: when the chained create_translation call is issued and its response
carries any error value other than NO_DEFAULT_LANGUAGE_SPECIFIED, that
secondary error is silently discarded — nothing is logged and nothing is
raised — and create_key still returns the primary key-creation response,
whatever the secondary content was. -/
theorem create_key_swallows_secondary_error (pid n d s : String)
    (kvs skvs : List (String × Json)) (kid : Json)
    (hid : keyIdOf (Json.obj kvs) = Except.ok kid)
    (hcond : ckCond kvs (some s) = true)
    (herr : pyEqStr (alookup skvs "error") "NO_DEFAULT_LANGUAGE_SPECIFIED" = false) :
    create_key pid n d (some s) (Json.obj kvs) (Json.obj skvs) =
      ([⟨pid, kid, s, none⟩], [], Except.ok (Json.obj kvs)) := by
  simp [create_key, hcond, hid, herr]

/-- Witness for C10 at a secondary response carrying a different error
code. -/
theorem create_key_swallows_secondary_error_witness :
    create_key "p" "n" "d" (some "hi")
        (Json.obj [("data", Json.obj [("attributes", Json.obj [("id", Json.str "1")])])])
        (Json.obj [("error", Json.str "SOME_OTHER_CODE")]) =
      ([⟨"p", Json.str "1", "hi", none⟩], [],
       Except.ok (Json.obj [("data",
         Json.obj [("attributes", Json.obj [("id", Json.str "1")])])])) := by
  exact create_key_swallows_secondary_error "p" "n" "d" "hi"
    [("data", Json.obj [("attributes", Json.obj [("id", Json.str "1")])])]
    [("error", Json.str "SOME_OTHER_CODE")] (Json.str "1") rfl (by decide) (by decide)

end Texteripy
